import Mathlib

/-
  Verification of the fireCNC firmware (Arduino/ESP32, FreeRTOS) against its
  natural-language specification.

  Shallow embedding: each C++ function that a claim mentions is translated
  into an executable Lean definition.  Hardware and RTOS primitives
  (Modbus register reads, FreeRTOS queues, the task watchdog, SD-card file
  handles) are modelled by explicit data: a fallible register read becomes an
  `Option` input, the bounded FreeRTOS queue becomes a list with a capacity,
  and the side effects of a call (log lines written, SNMP traps sent) become
  explicit output components.
-/

namespace FireCNC

/-! ## Servo polling (servo_tasks.cpp)

`read_limit_switches` calls `node.readHoldingRegisters(10, 1)`; on success it
returns the 16-bit response-buffer word, on failure it returns 0.  The Modbus
transaction is modelled by an `Option Nat` input: `some w` is a successful
read whose response buffer holds the word `w` (a `uint16_t`), `none` is a
failed read. -/

/-- Embedding of `read_limit_switches` (servo_tasks.cpp): returns the
response-buffer word on success and `0` on failure ("Return 0 on failure"). -/
def read_limit_switches (resp : Option Nat) : Nat :=
  match resp with
  | some w => w
  | none => 0

/-- Embedding of `read_current_position` (servo_tasks.cpp): on success the two
16-bit response words are combined as `(high_word << 16) | low_word` and the
32-bit result is returned as a signed `int32_t`; on failure the function
returns `0`. -/
def read_current_position (resp : Option (Nat × Nat)) : Int :=
  match resp with
  | some (hi, lo) =>
      let u := ((hi % 65536) * 65536 + lo % 65536) % 4294967296
      if u < 2147483648 then (u : Int) else (u : Int) - 4294967296
  | none => 0

/-- Per-axis position state held in the globals `servoY_position` /
`last_move_time_Y` (and the YY/X twins): the last known position and the tick
count of the last observed move. -/
structure AxisPos where
  last_position : Int
  last_move_time : Nat
deriving DecidableEq, Repr

/-- Embedding of `check_and_update_position` (servo_tasks.cpp): if the current
position differs from the stored one, store it and stamp `last_move_time`
with the current tick count; otherwise leave both untouched. -/
def check_and_update_position (current_position : Int) (st : AxisPos) (now : Nat) : AxisPos :=
  if current_position ≠ st.last_position then ⟨current_position, now⟩ else st

/-- The cross-task message struct `LimitStatusMessage` (led_tasks.h). -/
structure LimitStatusMessage where
  strip_id : Nat
  min_limit : Bool
  max_limit : Bool
deriving DecidableEq, Repr

/-- The bounded FreeRTOS queue `ledCommandQueue` (created with
`xQueueCreate(10, sizeof(LimitStatusMessage))`): a capacity plus the waiting
messages in FIFO order. -/
structure StatusQueue where
  capacity : Nat
  items : List LimitStatusMessage
deriving DecidableEq, Repr

/-- Embedding of `xQueueSend(queue, &msg, 0)`: with a zero-tick timeout the
call returns immediately; the message is appended when there is room,
otherwise the queue is unchanged and the call reports failure. -/
def xQueueSend (q : StatusQueue) (msg : LimitStatusMessage) : StatusQueue × Bool :=
  if q.items.length < q.capacity then ({ q with items := q.items ++ [msg] }, true)
  else (q, false)

/-- A diagnostic log line, as produced by `log_to_sd` calls. -/
structure LogEntry where
  timestamp : Nat
  message : String
deriving DecidableEq, Repr

/-- One axis slice of the `servo_task` loop body (servo_tasks.cpp): read the
limit word, and when it differs from `last_status` build a
`LimitStatusMessage` from bits 0 and 1, push it with
`xQueueSend(ledCommandQueue, &msg, 0)` and store the new word.

Returns the new `last_status`, the queue after the cycle, whether a
`LimitStatusMessage` push was attempted this cycle, and the `log_to_sd`
calls made by this code (the loop body contains none, and the result of
`xQueueSend` is discarded). -/
def poll_limit_step (axis_id : Nat) (resp : Option Nat) (last_status : Nat)
    (q : StatusQueue) : Nat × StatusQueue × Bool × List LogEntry :=
  let status := read_limit_switches resp
  if status ≠ last_status then
    let msg : LimitStatusMessage := ⟨axis_id, status &&& 1 != 0, status &&& 2 != 0⟩
    ((xQueueSend q msg).1 |> fun q2 => (status, q2, true, []))
  else (last_status, q, false, [])

/-- Iterating the limit-switch slice of the `servo_task` loop over a sequence
of Modbus read outcomes, starting from a given `last_status` and queue.
Returns the final `last_status`, the final queue, and per cycle whether a
`StatusEvent` push was made. -/
def servo_axis_run (axis_id : Nat) :
    Nat → StatusQueue → List (Option Nat) → Nat × StatusQueue × List Bool
  | last0, q, [] => (last0, q, [])
  | last0, q, r :: rest =>
      let s := poll_limit_step axis_id r last0 q
      let t := servo_axis_run axis_id s.1 s.2.1 rest
      (t.1, t.2.1, s.2.2.1 :: t.2.2)

/-! ## Connectivity (networking.cpp)

`networking_task` loops: whenever neither `ethernet_connected` nor
`wifi_connected` is set it runs one reconnection cycle — first the transport
recorded in `last_connection_is_ethernet`, then (if the matching flag is
still clear after the bounded delay) the other dynamic transport, and
finally, if both flags are still clear, `start_wifi(true)` (Wi-Fi with the
configured static IP).  The connection flags are set asynchronously by the
ESP-IDF event handlers; a cycle is modelled by three oracles saying whether
the corresponding attempt has set its flag by the time the task re-checks
it after the delay. -/

/-- A network bring-up attempt as started by the reconnection cycle:
`eth` is `start_ethernet()`, `wifiDhcp` is `start_wifi(false)`,
`wifiStatic` is `start_wifi(true)`. -/
inductive Attempt where
  | eth
  | wifiDhcp
  | wifiStatic
deriving DecidableEq, Repr

/-- The two connection flags maintained by the event handlers
(`ethernet_connected`, `wifi_connected` in networking.cpp). -/
structure NetFlags where
  ethernet_connected : Bool
  wifi_connected : Bool
deriving DecidableEq, Repr

/-- Embedding of one reconnection cycle of `networking_task`
(networking.cpp, the body guarded by
`if (!ethernet_connected && !wifi_connected)`, entered with both flags
clear).  `lastEth` is `last_connection_is_ethernet`; `ethOk` / `wifiOk` /
`wifiStaticOk` say whether the Ethernet, Wi-Fi-DHCP or Wi-Fi-static attempt
has set its connection flag by the time the task re-checks it after the
attempt's `vTaskDelay`.  Returns the attempts started, in order, and the
flags at the end of the cycle. -/
def networking_task_cycle (lastEth ethOk wifiOk wifiStaticOk : Bool) :
    List Attempt × NetFlags :=
  let dyn :=
    if lastEth then
      if !ethOk then ([Attempt.eth, Attempt.wifiDhcp], NetFlags.mk ethOk wifiOk)
      else ([Attempt.eth], NetFlags.mk ethOk false)
    else
      if !wifiOk then ([Attempt.wifiDhcp, Attempt.eth], NetFlags.mk ethOk wifiOk)
      else ([Attempt.wifiDhcp], NetFlags.mk false wifiOk)
  if !dyn.2.ethernet_connected && !dyn.2.wifi_connected then
    (dyn.1 ++ [Attempt.wifiStatic], NetFlags.mk dyn.2.ethernet_connected wifiStaticOk)
  else dyn

/-- The two IP-acquisition events handled by `on_got_ip` (networking.cpp):
`IP_EVENT_ETH_GOT_IP` and `IP_EVENT_STA_GOT_IP`. -/
inductive IpEvent where
  | ethGotIp
  | staGotIp
deriving DecidableEq, Repr

/-- Connectivity state touched by `on_got_ip`. -/
structure ConnState where
  last_connection_is_ethernet : Bool
  ethernet_connected : Bool
  wifi_connected : Bool
deriving DecidableEq, Repr

/-- The onboard-LED indication chosen by `on_got_ip`. -/
inductive FlashKind where
  | twoShortBlueFlashes
  | greenFlash3000
deriving DecidableEq, Repr

/-- Embedding of the `on_got_ip` event handler (networking.cpp).  On
`IP_EVENT_ETH_GOT_IP` it sets `last_connection_is_ethernet = true` and
`ethernet_connected = true`; on `IP_EVENT_STA_GOT_IP` it sets
`last_connection_is_ethernet = false` and `wifi_connected = true`, and picks
the green flash exactly when the acquired address equals the configured
static IP (`ip_is_static`).  The handler then sends an SNMP trap and runs
NTP in both cases (not modelled here). -/
def on_got_ip (ev : IpEvent) (ip_is_static : Bool) (st : ConnState) :
    ConnState × FlashKind :=
  match ev with
  | IpEvent.ethGotIp =>
      ({ st with last_connection_is_ethernet := true, ethernet_connected := true },
       FlashKind.twoShortBlueFlashes)
  | IpEvent.staGotIp =>
      ({ st with last_connection_is_ethernet := false, wifi_connected := true },
       if ip_is_static then FlashKind.greenFlash3000 else FlashKind.twoShortBlueFlashes)

/-! ## Shared log (sd_tasks.cpp)

`log_to_sd` takes the SD mutex, formats a timestamp, appends the line to
`/system.log` if the file opens, and sends an SNMP trap on a failed open.
A ring-buffer handle (`logBufferHandle` / the `RingBuf` in the sketch) is
declared in the module but the function body never touches it.  The mutex is
modelled by the call being a sequential state transformer; the fallible
`SD.open` is the `sd_open_ok` input; `now` is the formatted timestamp. -/

/-- State shared by the logging code: lines of `/system.log`, the contents of
the in-memory log ring buffer, and the SNMP traps sent so far. -/
structure LogState where
  sd_file : List LogEntry
  ring : List LogEntry
  traps : List String
deriving DecidableEq, Repr

/-- The trap text sent by `log_to_sd` when the log file fails to open. -/
def sdWriteFailedTrap : String := "SD Card Write Failed"

/-- Embedding of `log_to_sd` (sd_tasks.cpp): under the SD mutex, append the
timestamped line to the log file when it opens, otherwise send the
"SD Card Write Failed" trap.  The in-memory ring buffer is never written
by the function body. -/
def log_to_sd (now : Nat) (message : String) (sd_open_ok : Bool) (st : LogState) :
    LogState :=
  if sd_open_ok then
    { st with sd_file := st.sd_file ++ [LogEntry.mk now message] }
  else
    { st with traps := st.traps ++ [sdWriteFailedTrap] }

/-! ## Supervisor (fireCNC.ino `setup`) -/

/-- The FreeRTOS tasks involved in `setup`'s watchdog wiring: the five
workers created with `xTaskCreate` plus the two idle tasks. -/
inductive RTOSTask where
  | networking
  | led
  | servo
  | webserver
  | sdMonitor
  | idle0
  | idle1
deriving DecidableEq, Repr

/-- The worker tasks created by `setup` (fireCNC.ino): `networking_task`
(handle slot `NULL`), `led_task`, `servo_task`, `webserver_task`,
`sd_monitor_task`. -/
def setup_created_worker_tasks : List RTOSTask :=
  [RTOSTask.networking, RTOSTask.led, RTOSTask.servo, RTOSTask.webserver,
   RTOSTask.sdMonitor]

/-- The tasks `setup` subscribes to the task watchdog with `esp_task_wdt_add`
(fireCNC.ino): the four saved handles `ledTaskHandle`, `servoTaskHandle`,
`webserverTaskHandle`, `sdMonitorTaskHandle`, and both idle tasks.
`networking_task` is created with a `NULL` handle pointer and no
`esp_task_wdt_add` call is made for it. -/
def setup_wdt_subscribed_tasks : List RTOSTask :=
  [RTOSTask.led, RTOSTask.servo, RTOSTask.webserver, RTOSTask.sdMonitor,
   RTOSTask.idle0, RTOSTask.idle1]

/-! ## LED rendering (led_tasks.cpp)

LED strips are FastLED `CRGB` arrays, modelled as lists of 8-bit RGB cells.
Out-of-range accesses in the C++ (raw pointer arithmetic) have no defined
meaning; in the model a write beyond the list is a no-op and the set of
attempted writes is tracked explicitly where a claim is about bounds. -/

/-- A FastLED `CRGB` cell (one 8-bit value per channel). -/
structure CRGB where
  r : Nat
  g : Nat
  b : Nat
deriving DecidableEq, Repr

/-- FastLED's `CRGB::White` (0xFFFFFF). -/
def CRGB.White : CRGB := ⟨255, 255, 255⟩

/-- FastLED's `CRGB::Orange` (0xFFA500). -/
def CRGB.Orange : CRGB := ⟨255, 165, 0⟩

/-- FastLED's `CRGB::Red` (0xFF0000). -/
def CRGB.Red : CRGB := ⟨255, 0, 0⟩

/-- FastLED's `CRGB::Green` (0x008000). -/
def CRGB.Green : CRGB := ⟨0, 128, 0⟩

/-- FastLED's `scale8` with the default `FASTLED_SCALE8_FIXED` blend:
`scale8(i, s) = (i * (1 + s)) >> 8` on 8-bit operands (the scale argument is
a `fract8`, so an `int` caller value is truncated to its low byte). -/
def scale8 (i s : Nat) : Nat := (i % 256) * (s % 256 + 1) / 256

/-- FastLED's `CRGB::nscale8`: scale each channel by `scale8`. -/
def CRGB.nscale8 (c : CRGB) (s : Nat) : CRGB :=
  ⟨scale8 c.r s, scale8 c.g s, scale8 c.b s⟩

/-- Embedding of `dim_leds_on_idle` (led_tasks.cpp): for every cell of the
strip, if the cell is `CRGB::White` scale it with `nscale8(idle_percent)`,
otherwise leave it alone ("Only dim white LEDs"). -/
def dim_leds_on_idle (leds : List CRGB) (idle_percent : Nat) : List CRGB :=
  leds.map (fun c => if c = CRGB.White then c.nscale8 idle_percent else c)

/-- The loop `for (i = lo; i < lo + count; i++) dst[i] = src[i]` used by the
restore and backup phases of `update_position_display_and_preserve`.  A write
past the end of `dst` (impossible in the clamped C++ ranges when the array
has `num_leds` cells) is a no-op, as is reading past `src`. -/
def overwriteFrom (dst src : List CRGB) (lo count : Nat) : List CRGB :=
  (List.range count).foldl
    (fun d j =>
      match src.get? (lo + j) with
      | some c => d.set (lo + j) c
      | none => d)
    dst

/-- The loop `for (i = lo; i < lo + count; i++) dst[i] = c` used by the paint
phase of `update_position_display_and_preserve`. -/
def fillRange (dst : List CRGB) (lo count : Nat) (c : CRGB) : List CRGB :=
  (List.range count).foldl (fun d j => d.set (lo + j) c) dst

/-- Embedding of `update_position_display_and_preserve` (led_tasks.cpp).
Inputs mirror the C++ parameters (`int` arithmetic, division truncating
toward zero, `last_pos` passed by reference); the result is the triple
(new `leds`, new `backup_leds`, new `last_pos`).

Steps, as in the source: return unchanged when `rail_length <= 0`; compute
`led_pos = position * num_leds / rail_length`; return unchanged when
`led_pos == last_pos`; otherwise restore the clamped range around the old
`last_pos` from the backup (skipped when `last_pos == -1`), snapshot the
clamped range around `led_pos` into the backup, paint that range green, and
store `led_pos` in `last_pos`. -/
def update_position_display_and_preserve (leds backup_leds : List CRGB)
    (num_leds position rail_length led_count_around_center last_pos : Int) :
    List CRGB × List CRGB × Int :=
  if rail_length ≤ 0 then (leds, backup_leds, last_pos)
  else
    let led_pos := (position * num_leds).tdiv rail_length
    if led_pos = last_pos then (leds, backup_leds, last_pos)
    else
      let leds1 :=
        if last_pos ≠ -1 then
          let start_restore := max 0 (last_pos - led_count_around_center)
          let end_restore := min (num_leds - 1) (last_pos + led_count_around_center)
          overwriteFrom leds backup_leds start_restore.toNat
            (end_restore - start_restore + 1).toNat
        else leds
      let start_save := max 0 (led_pos - led_count_around_center)
      let end_save := min (num_leds - 1) (led_pos + led_count_around_center)
      let cnt := (end_save - start_save + 1).toNat
      let backup1 := overwriteFrom backup_leds leds1 start_save.toNat cnt
      let leds2 := fillRange leds1 start_save.toNat cnt CRGB.Green
      (leds2, backup1, led_pos)

/-- The writes performed by one `fill_solid(leds + start, count, c)` call, as
(index into the strip, color) pairs; `start` may be negative when the C++
pointer arithmetic walks off the front of the array. -/
def fill_solid_writes (start : Int) (count : Nat) (c : CRGB) : List (Int × CRGB) :=
  (List.range count).map (fun (j : Nat) => (start + (j : Int), c))

/-- Embedding of `flash_red_limits` (led_tasks.cpp) as its sequence of cell
writes for one call: paint the whole strip orange, then — depending on the
limit flags and the current blink phase `flash_state` — repaint the first 20
cells and/or the last 20 cells (`leds + (num_leds - 20)`) red or orange.
The static blink-phase toggling driven by `millis()` is abstracted into the
`flash_state` parameter. -/
def flash_red_limits_writes (num_leds : Int)
    (min_limit max_limit flash_state : Bool) : List (Int × CRGB) :=
  fill_solid_writes 0 num_leds.toNat CRGB.Orange
    ++ (if min_limit && flash_state then fill_solid_writes 0 20 CRGB.Red
        else if min_limit && !flash_state then fill_solid_writes 0 20 CRGB.Orange
        else [])
    ++ (if max_limit && flash_state then
          fill_solid_writes (num_leds - 20) 20 CRGB.Red
        else if max_limit && !flash_state then
          fill_solid_writes (num_leds - 20) 20 CRGB.Orange
        else [])

/-! ## Theorems -/

/-- C1 (counterexample): the claim that a failed register read retains the
previously sampled values is false.  With a stored limit word of 1, a failed
read is converted to the sample 0, so the stored word changes to 0 and a
`StatusEvent` is pushed; with a stored position of 5 at tick 100, a failed
position read sets the position to 0 and resets the idle timer to the
current tick. -/
theorem C1_failed_read_not_retained_cex :
    poll_limit_step 0 none 1 (StatusQueue.mk 10 []) ≠
      (1, StatusQueue.mk 10 [], false, ([] : List LogEntry)) ∧
    check_and_update_position (read_current_position none) (AxisPos.mk 5 100) 200 ≠
      AxisPos.mk 5 100 := by
  decide

/-- C1 (amended): a failed register read yields the value 0 and is processed
exactly like a successful sample that read 0 — so the previous limit word,
position and idle timer are retained only when the previous limit word
(resp. position) was already 0. -/
theorem C1_failed_read_acts_as_zero_sample :
    (∀ a last q, poll_limit_step a none last q = poll_limit_step a (some 0) last q) ∧
    (∀ st now, check_and_update_position (read_current_position none) st now =
        check_and_update_position 0 st now) ∧
    (∀ a q, poll_limit_step a none 0 q = (0, q, false, [])) ∧
    (∀ t now, check_and_update_position (read_current_position none)
        (AxisPos.mk 0 t) now = AxisPos.mk 0 t) := by
  refine ⟨fun a last q => rfl, fun st now => rfl, fun a q => ?_, fun t now => ?_⟩
  · simp [poll_limit_step, read_limit_switches]
  · simp [check_and_update_position, read_current_position]

/-- C2: in a reconnection cycle with `last_connection_is_ethernet = false`
(last success was Wi-Fi) and both dynamic attempts failing, the attempts are
exactly Wi-Fi-DHCP, then Ethernet, then Wi-Fi-static; and in every cycle the
static-IP fallback is started if and only if both dynamic attempts failed. -/
theorem C2_fallback_order :
    (∀ s, (networking_task_cycle false false false s).1 =
        [Attempt.wifiDhcp, Attempt.eth, Attempt.wifiStatic]) ∧
    (∀ lastEth ethOk wifiOk s,
        Attempt.wifiStatic ∈ (networking_task_cycle lastEth ethOk wifiOk s).1 ↔
          ethOk = false ∧ wifiOk = false) := by
  decide

/-- C3 (counterexample): the claim that a static-IP fallback connection
leaves `last_connection_is_ethernet` unchanged is false.  Starting from
`last_connection_is_ethernet = true`, a `IP_EVENT_STA_GOT_IP` whose address
equals the configured static IP (the static-fallback success) sets the flag
to `false`. -/
theorem C3_static_fallback_overwrites_memory_cex :
    (on_got_ip IpEvent.staGotIp true
        (ConnState.mk true false false)).1.last_connection_is_ethernet ≠
      (ConnState.mk true false false).last_connection_is_ethernet := by
  decide

/-- C3 (amended): `on_got_ip` records the transport on every IP acquisition:
`last_connection_is_ethernet` becomes `true` on an Ethernet IP event and
`false` on a Wi-Fi IP event, whether the Wi-Fi address was obtained by DHCP
or is the configured static address. -/
theorem C3_on_got_ip_always_records_transport :
    ∀ st ipStatic,
      (on_got_ip IpEvent.ethGotIp ipStatic st).1.last_connection_is_ethernet = true ∧
      (on_got_ip IpEvent.staGotIp ipStatic st).1.last_connection_is_ethernet = false := by
  intro st ipStatic
  exact ⟨rfl, rfl⟩

/-- C4: contrary to the claim (and to `log_to_sd`'s own doc comment,
"Appends a message to the log file on the SD card and the ring buffer"), the
body of `log_to_sd` never pushes the entry into the in-memory ring buffer:
for every call the ring is returned unchanged. -/
theorem C4_ring_buffer_never_pushed :
    ∀ now msg ok st, (log_to_sd now msg ok st).ring = st.ring := by
  intro now msg ok st
  unfold log_to_sd
  split <;> rfl

/-- C6 (counterexample): the claim that every worker created by `setup` is
registered with the task watchdog is false: `networking_task` is created but
is not among the tasks subscribed with `esp_task_wdt_add`. -/
theorem C6_networking_not_watchdogged_cex :
    RTOSTask.networking ∈ setup_created_worker_tasks ∧
      RTOSTask.networking ∉ setup_wdt_subscribed_tasks := by
  decide

/-- C6 (amended): every worker task created by `setup` except
`networking_task` (whose handle slot is `NULL`) is subscribed to the task
watchdog. -/
theorem C6_wdt_registration :
    ∀ t, t ∈ setup_created_worker_tasks →
      t = RTOSTask.networking ∨ t ∈ setup_wdt_subscribed_tasks := by
  intro t ht
  fin_cases ht <;> decide

/-- C6 (witness): the LED worker is created and indeed watchdog-subscribed. -/
theorem C6_wdt_registration_witness :
    RTOSTask.led = RTOSTask.networking ∨
      RTOSTask.led ∈ setup_wdt_subscribed_tasks :=
  C6_wdt_registration RTOSTask.led (by decide)

/-- C7 (counterexample): the claim that a drop on a full channel is logged is
false.  With the 10-slot `ledCommandQueue` full and a changed limit word, the
push is attempted and the event is dropped (queue unchanged), but the loop
body performs no `log_to_sd` call: the log output of the cycle is empty. -/
theorem C7_drop_not_logged_cex :
    (poll_limit_step 0 (some 3) 0
        (StatusQueue.mk 10 (List.replicate 10 (LimitStatusMessage.mk 0 false false)))).2.1 =
      StatusQueue.mk 10 (List.replicate 10 (LimitStatusMessage.mk 0 false false)) ∧
    (poll_limit_step 0 (some 3) 0
        (StatusQueue.mk 10 (List.replicate 10 (LimitStatusMessage.mk 0 false false)))).2.2.1 = true ∧
    (poll_limit_step 0 (some 3) 0
        (StatusQueue.mk 10 (List.replicate 10 (LimitStatusMessage.mk 0 false false)))).2.2.2 = [] := by
  decide

/-- C7 (amended): when the status channel is full and the sampled word
changed, the zero-timeout push returns immediately, the event is dropped
(the queue and the stored word evolve as if nothing was enqueued, the word
still being updated), and no log line is produced — the drop is silent. -/
theorem C7_nonblocking_drop (a w last : Nat) (q : StatusQueue)
    (hfull : q.capacity ≤ q.items.length) (hch : w ≠ last) :
    poll_limit_step a (some w) last q = (w, q, true, []) := by
  simp [poll_limit_step, read_limit_switches, xQueueSend, hch, Nat.not_lt.mpr hfull]

/-- C7 (witness): the amended drop behavior at a concrete full queue. -/
theorem C7_nonblocking_drop_witness :
    poll_limit_step 1 (some 3) 0
        (StatusQueue.mk 2 (List.replicate 2 (LimitStatusMessage.mk 0 false false))) =
      (3, StatusQueue.mk 2 (List.replicate 2 (LimitStatusMessage.mk 0 false false)),
       true, []) :=
  C7_nonblocking_drop 1 3 0 _ (by decide) (by decide)

/-- C5: over any sequence of successfully sampled limit words, the poller
pushes a `StatusEvent` on a cycle if and only if that cycle's word differs
from the immediately preceding sample (the word stored in `last_status`
before the sequence, for the first cycle); repeats emit nothing.  Stated as:
the per-cycle emission flags equal the pointwise inequality of each sample
with its predecessor. -/
theorem C5_event_iff_sample_changed (last0 : Nat) (q : StatusQueue) (ws : List Nat) :
    (servo_axis_run 0 last0 q (ws.map some)).2.2 =
      (ws.zip (last0 :: ws)).map (fun p => decide (p.1 ≠ p.2)) := by
  induction ws generalizing last0 q with
  | nil => rfl
  | cons w rest ih =>
      by_cases h : w = last0
      · subst h
        simp [servo_axis_run, poll_limit_step, read_limit_switches, ih]
      · simp [servo_axis_run, poll_limit_step, read_limit_switches, h, ih]

/-- C8: if the computed marker cell `position * num_leds / rail_length`
equals the last-drawn cell, `update_position_display_and_preserve` returns
the strip, the backup buffer and the last-drawn state unchanged — no LED
cell is altered, inside or outside the previously saved range. -/
theorem C8_same_cell_noop (leds backup_leds : List CRGB)
    (num_leds position rail_length around last_pos : Int)
    (hrail : 0 < rail_length)
    (hsame : (position * num_leds).tdiv rail_length = last_pos) :
    update_position_display_and_preserve leds backup_leds num_leds position
        rail_length around last_pos = (leds, backup_leds, last_pos) := by
  simp only [update_position_display_and_preserve, if_neg (not_le.mpr hrail),
    hsame, if_pos]

/-- C8 (witness): redrawing at the same computed cell (cell 1 of a 2-cell
strip, position 1 on a rail of length 2, last-drawn cell 1) changes
nothing. -/
theorem C8_same_cell_noop_witness :
    update_position_display_and_preserve [CRGB.White, CRGB.White]
        [CRGB.Orange, CRGB.Orange] 2 1 2 1 1 =
      ([CRGB.White, CRGB.White], [CRGB.Orange, CRGB.Orange], 1) :=
  C8_same_cell_noop _ _ _ _ _ _ _ (by decide) (by decide)

/-- C9: `dim_leds_on_idle` is idempotent: a second application to the same
strip with the same percentage changes nothing, because only cells that are
exactly `CRGB::White` are scaled, and a scaled cell is either no longer
white (hence skipped) or was left equal to white (hence rescaled to the same
value). -/
theorem C9_idle_dim_idempotent (leds : List CRGB) (p : Nat) :
    dim_leds_on_idle (dim_leds_on_idle leds p) p = dim_leds_on_idle leds p := by
  induction leds with
  | nil => rfl
  | cons c rest ih =>
      simp only [dim_leds_on_idle, List.map_cons, List.cons.injEq]
      refine ⟨?_, ?_⟩
      · by_cases h1 : c = CRGB.White
        · subst h1
          by_cases h2 : CRGB.White.nscale8 p = CRGB.White
          · simp [h2]
          · simp [h2]
        · simp [h1]
      · simp only [dim_leds_on_idle] at ih
        exact ih

/-- C10 (counterexample): the claim that `flash_red_limits` writes only
inside `[0, num_leds - 1]` for every `num_leds ≥ 1` is false: on a 1-cell
strip with the min limit active in the red blink phase, the fixed 20-cell
region makes it write cell 19, which is outside the strip. -/
theorem C10_limit_flash_oob_cex :
    ((19 : Int), CRGB.Red) ∈ flash_red_limits_writes 1 true false true ∧
      ¬ ((19 : Int) < 1) := by
  decide

/-- Every write of a `fill_solid(leds + start, count, c)` call lands in
`[start, start + count)`. -/
theorem mem_fill_solid_writes (start : Int) (count : Nat) (c : CRGB)
    (w : Int × CRGB) (hw : w ∈ fill_solid_writes start count c) :
    start ≤ w.1 ∧ w.1 < start + count := by
  simp only [fill_solid_writes] at hw
  obtain ⟨j, hjr, hwe⟩ := List.mem_map.mp hw
  rw [List.mem_range] at hjr
  subst hwe
  dsimp only
  omega

/-- C10 (amended): for every strip of at least 20 cells — the fixed width of
each flash region — every write of `flash_red_limits` lands inside
`[0, num_leds - 1]`, for every combination of limit flags and blink phase. -/
theorem C10_limit_flash_in_bounds (num_leds : Int) (mn mx ph : Bool)
    (h : 20 ≤ num_leds) :
    ∀ w ∈ flash_red_limits_writes num_leds mn mx ph,
      0 ≤ w.1 ∧ w.1 < num_leds := by
  intro w hw
  simp only [flash_red_limits_writes, List.mem_append] at hw
  rcases hw with (hw | hw) | hw
  · have hm := mem_fill_solid_writes _ _ _ _ hw
    omega
  · split_ifs at hw with hc1 hc2
    · have hm := mem_fill_solid_writes _ _ _ _ hw
      omega
    · have hm := mem_fill_solid_writes _ _ _ _ hw
      omega
    · exact absurd hw (List.not_mem_nil _)
  · split_ifs at hw with hc1 hc2
    · have hm := mem_fill_solid_writes _ _ _ _ hw
      omega
    · have hm := mem_fill_solid_writes _ _ _ _ hw
      omega
    · exact absurd hw (List.not_mem_nil _)

/-- C10 (witness): on a 20-cell strip with both limits active in the red
phase, the write to cell 0 is in bounds. -/
theorem C10_limit_flash_in_bounds_witness :
    0 ≤ (((0 : Int), CRGB.Orange) : Int × CRGB).1 ∧
      (((0 : Int), CRGB.Orange) : Int × CRGB).1 < 20 :=
  C10_limit_flash_in_bounds 20 true true true (by decide) ((0 : Int), CRGB.Orange)
    (by decide)

end FireCNC
